import Mathlib

/-!
A shallow embedding of the webhook transaction processor implemented in
`app.py`, together with machine-checked verdicts on the specification
claims about it.  The MongoDB collection is modelled as a list of
documents, machine time as a natural-number clock threaded through the
state, and the background worker threads as explicit events of a
small-step transition system.  Exceptions raised by the external store
are modelled as explicit outcome values carrying the exception text.
-/

/-- Body of the intake endpoint, the pydantic model `WebhookRequest`
(app.py lines 31-36).  The pydantic field constraints (`gt=0`,
`min_length=3`, `max_length=3`) are checked by `validWebhook` before the
handler body runs, which is what FastAPI does.  The float `amount` is
modelled as an integer; only its sign matters to the program. -/
structure WebhookRequest where
  transaction_id : String
  source_account : String
  destination_account : String
  amount : Int
  currency : String
deriving DecidableEq

/-- A document of the `transactions` collection, exactly the dictionary
built by the intake handler (app.py lines 147-156).  `status` is the
literal string stored by the program; the ISO timestamp strings are
modelled as natural numbers on a global clock. -/
structure TransactionDoc where
  transaction_id : String
  source_account : String
  destination_account : String
  amount : Int
  currency : String
  status : String
  created_at : Nat
  processed_at : Option Nat
deriving DecidableEq

/-- Result of the intake endpoint as seen by the caller.
`accepted` is the 202 acknowledgment `{"message": "Webhook received"}`;
`validationError` is pydantic's 422 rejection, produced before the
handler body runs; `serverError` is a raised `HTTPException` with its
status code and `detail` string. -/
inductive IntakeResponse
  | accepted
  | validationError
  | serverError (statusCode : Nat) (detail : String)
deriving DecidableEq

/-- Result of the status endpoint: the full record (the `_id` field the
code pops is not part of the model), a 404 `HTTPException`, or a 500
`HTTPException`. -/
inductive StatusResponse
  | ok (record : TransactionDoc)
  | notFound (detail : String)
  | serverError (statusCode : Nat) (detail : String)
deriving DecidableEq

/-- Log line emitted by one run of the background worker
(app.py lines 74-82). -/
inductive WorkerLog
  | info (tid : String)
  | warning (tid : String)
  | errorLog (tid : String) (msg : String)
deriving DecidableEq

/-- Checks the pydantic validation of `WebhookRequest`: `amount` must be
strictly positive and `currency` exactly three characters (app.py lines
35-36).  The string fields are required, which the structure enforces. -/
def validWebhook (w : WebhookRequest) : Bool :=
  decide (0 < w.amount) && decide (w.currency.length = 3)

/-- Whether a list of characters starts with the given pattern. -/
def startsWithChars : List Char → List Char → Bool
  | _, [] => true
  | [], _ :: _ => false
  | a :: as, b :: bs => a == b && startsWithChars as bs

/-- Whether the pattern occurs as a contiguous run anywhere in the list. -/
def hasSubstrChars : List Char → List Char → Bool
  | [], pat => startsWithChars [] pat
  | s@(_ :: rest), pat => startsWithChars s pat || hasSubstrChars rest pat

/-- The duplicate test of app.py line 168: Python's
`"duplicate key" in str(e).lower()`. -/
def containsDuplicateKey (msg : String) : Bool :=
  hasSubstrChars (msg.toList.map Char.toLower) (String.toList ("duplicate key"))

/-- Exception text of a MongoDB unique-index violation, the condition the
store raises on a duplicate `transaction_id`. -/
def duplicateKeyMessage : String := "E11000 duplicate key error"

/-- State of the whole system: the `transactions` collection, the
append-only log of worker dispatches (pairs of `transaction_id` and
dispatch time, recording every `start_background_processing` call), the
dispatched workers that have not yet run, and the global clock. -/
structure AppState where
  transactions : List TransactionDoc
  dispatched : List (String × Nat)
  pending : List (String × Nat)
  clock : Nat
deriving DecidableEq

/-- The system before any request: empty store, no workers, clock zero. -/
def initialState : AppState :=
  { transactions := [], dispatched := [], pending := [], clock := 0 }

/-- The candidate document built by the intake handler
(app.py lines 147-156): `status = PROCESSING`, `created_at = now`,
`processed_at` absent. -/
def buildDoc (w : WebhookRequest) (now : Nat) : TransactionDoc :=
  { transaction_id := w.transaction_id
    source_account := w.source_account
    destination_account := w.destination_account
    amount := w.amount
    currency := w.currency
    status := "PROCESSING"
    created_at := now
    processed_at := none }

/-- Whether the collection already holds a document with this
`transaction_id` (the condition under which the unique index makes
`insert_one` fail). -/
def hasTransaction (txs : List TransactionDoc) (tid : String) : Bool :=
  txs.any (fun d => d.transaction_id == tid)

/-- Outcome of `insert_one` (app.py line 160): either the new collection
contents, or a raised exception carrying its text. -/
inductive InsertOutcome
  | ok (txs : List TransactionDoc)
  | exc (msg : String)
deriving DecidableEq

/-- Semantics of `db.transactions.insert_one` under the unique index on
`transaction_id`: appends the document, or raises the duplicate-key
error when a document with the same `transaction_id` exists. -/
def insert_one (txs : List TransactionDoc) (doc : TransactionDoc) : InsertOutcome :=
  if hasTransaction txs doc.transaction_id then InsertOutcome.exc duplicateKeyMessage
  else InsertOutcome.ok (txs ++ [doc])

/-- The intake handler body after the insert attempt (app.py lines
159-180).  On success the record is stored and a worker is dispatched;
on an exception whose text contains "duplicate key" the duplicate is
absorbed into the accepted acknowledgment; any other exception is
re-raised, caught by the outer handler, and surfaced as a 500 with the
fixed generic detail. -/
def handleInsertOutcome (w : WebhookRequest) (s : AppState) :
    InsertOutcome → IntakeResponse × AppState
  | InsertOutcome.ok txs =>
      (IntakeResponse.accepted,
        { s with
            transactions := txs
            dispatched := s.dispatched ++ [(w.transaction_id, s.clock)]
            pending := s.pending ++ [(w.transaction_id, s.clock)] })
  | InsertOutcome.exc msg =>
      if containsDuplicateKey msg then (IntakeResponse.accepted, s)
      else (IntakeResponse.serverError 500 ("Failed to process webhook"), s)

/-- The intake handler `receive_webhook` (app.py lines 136-180) on an
already-validated request: build the candidate document, attempt the
insert, and handle its outcome. -/
def receive_webhook (w : WebhookRequest) (s : AppState) : IntakeResponse × AppState :=
  handleInsertOutcome w s (insert_one s.transactions (buildDoc w s.clock))

/-- The full intake endpoint: pydantic validation first (rejecting with
422 before the handler body and hence before any persistence attempt),
then the handler. -/
def webhook_endpoint (w : WebhookRequest) (s : AppState) : IntakeResponse × AppState :=
  if validWebhook w then receive_webhook w s else (IntakeResponse.validationError, s)

/-- Runs a sequence of intake requests through the handler, collecting
the responses. -/
def processAll : List WebhookRequest → AppState → List IntakeResponse × AppState
  | [], s => ([], s)
  | w :: ws, s =>
      ((receive_webhook w s).1 :: (processAll ws (receive_webhook w s).2).1,
        (processAll ws (receive_webhook w s).2).2)

/-- Runs a sequence of intake requests through the full endpoint —
pydantic validation included — collecting the responses. -/
def processAllEndpoint : List WebhookRequest → AppState → List IntakeResponse × AppState
  | [], s => ([], s)
  | w :: ws, s =>
      ((webhook_endpoint w s).1 :: (processAllEndpoint ws (webhook_endpoint w s).2).1,
        (processAllEndpoint ws (webhook_endpoint w s).2).2)

/-- Semantics of `update_one` with filter `{"transaction_id": tid}` and
`$set {status: "PROCESSED", processed_at: t}` (app.py lines 66-72): at
most the first matching document is rewritten; the returned number is
`modified_count`, which is zero when nothing matched or when the `$set`
was a no-op. -/
def update_one (txs : List TransactionDoc) (tid : String) (t : Nat) :
    List TransactionDoc × Nat :=
  match txs with
  | [] => ([], 0)
  | d :: rest =>
      if d.transaction_id == tid then
        ({ d with status := "PROCESSED", processed_at := some t } :: rest,
          if { d with status := "PROCESSED", processed_at := some t } = d then 0 else 1)
      else
        ((d :: (update_one rest tid t).1), (update_one rest tid t).2)

/-- Environment choice for one worker run: the store update either
succeeds or raises an exception with the given text. -/
inductive UpdateAttempt
  | succeeds
  | fails (msg : String)
deriving DecidableEq

/-- The try-block of the worker (app.py lines 55-79): perform the update,
or raise. -/
def worker_try (tid : String) (updTime : Nat) (a : UpdateAttempt)
    (txs : List TransactionDoc) : Except String (List TransactionDoc × Nat) :=
  match a with
  | UpdateAttempt.succeeds => Except.ok (update_one txs tid updTime)
  | UpdateAttempt.fails msg => Except.error msg

/-- The background worker `process_transaction_background` (app.py lines
53-82) as run at update time `updTime` (the clock value after its
30-unit sleep).  A positive `modified_count` is logged as success, zero
as a warning (no retry, no failure), and any exception is caught and
logged; the function always returns normally, so nothing propagates out
of the worker. -/
def process_transaction_background (tid : String) (updTime : Nat) (a : UpdateAttempt)
    (txs : List TransactionDoc) : List TransactionDoc × WorkerLog :=
  match worker_try tid updTime a txs with
  | Except.ok r => (r.1, if 0 < r.2 then WorkerLog.info tid else WorkerLog.warning tid)
  | Except.error msg => (txs, WorkerLog.errorLog tid msg)

/-- Effect on the system state of a dispatched worker running
successfully at the current clock: its update is applied and it leaves
the pending set. -/
def run_worker (tid : String) (t0 : Nat) (s : AppState) : AppState :=
  { s with
      transactions :=
        (process_transaction_background tid s.clock UpdateAttempt.succeeds s.transactions).1
      pending := s.pending.erase (tid, t0) }

/-- Outcome of `find_one` on the `transactions` collection
(app.py line 189). -/
inductive FindOutcome
  | found (d : TransactionDoc)
  | absent
  | fails (msg : String)
deriving DecidableEq

/-- Semantics of `db.transactions.find_one({"transaction_id": tid})`:
the first matching document, or an absence indicator. -/
def find_one (txs : List TransactionDoc) (tid : String) : FindOutcome :=
  match txs.find? (fun d => d.transaction_id == tid) with
  | some d => FindOutcome.found d
  | none => FindOutcome.absent

/-- The status endpoint `get_transaction_status` (app.py lines 182-209).
A missing record raises a 404 `HTTPException` which the
`except HTTPException: raise` clause re-raises unchanged, so it is never
converted into the generic 500; a found record is returned whole (minus
the popped `_id`); a store failure becomes the generic 500. -/
def get_transaction_status (tid : String) (r : FindOutcome) : StatusResponse :=
  match r with
  | FindOutcome.found d => StatusResponse.ok d
  | FindOutcome.absent => StatusResponse.notFound ("Transaction not found: " ++ tid)
  | FindOutcome.fails _ => StatusResponse.serverError 500 ("Failed to retrieve transaction status")

/-- Environment choice for startup: creating the unique index either
succeeds or raises with the given text. -/
inductive IndexAttempt
  | succeeds
  | fails (msg : String)
deriving DecidableEq

/-- Result of the startup hook.  `indexError` is the logged error line,
if any; `propagated` records whether an exception escaped the hook
(FastAPI would then abort startup instead of serving traffic). -/
structure StartupOutcome where
  indexError : Option String
  propagated : Bool
deriving DecidableEq

/-- The startup hook `startup_event` (app.py lines 117-125): the index
creation is attempted inside a try/except whose handler only logs, so a
failure never escapes and the application serves traffic regardless. -/
def startup_event (a : IndexAttempt) : StartupOutcome :=
  match a with
  | IndexAttempt.succeeds => { indexError := none, propagated := false }
  | IndexAttempt.fails msg =>
      { indexError := some ("Failed to create indexes: " ++ msg), propagated := false }

/-- Observable events of the transition system. -/
inductive Event
  | intake (w : WebhookRequest)
  | workerRun (tid : String) (t0 : Nat)
  | workerFail (tid : String) (t0 : Nat) (msg : String)
  | tick (n : Nat)
deriving DecidableEq

/-- Small-step semantics of the whole system.  An intake request runs the
handler at the current clock; a dispatched worker may perform its update
only once its 30-unit sleep has elapsed, and does so at the current
clock; a worker whose try-block raises is caught and changes no
document; the clock only moves forward. -/
inductive Step : AppState → Event → AppState → Prop
  | intake (s : AppState) (w : WebhookRequest) :
      Step s (Event.intake w) (receive_webhook w s).2
  | workerRun (s : AppState) (tid : String) (t0 : Nat)
      (hmem : (tid, t0) ∈ s.pending) (ht : t0 + 30 ≤ s.clock) :
      Step s (Event.workerRun tid t0) (run_worker tid t0 s)
  | workerFail (s : AppState) (tid : String) (t0 : Nat) (msg : String)
      (hmem : (tid, t0) ∈ s.pending) :
      Step s (Event.workerFail tid t0 msg)
        { s with
            transactions :=
              (process_transaction_background tid s.clock (UpdateAttempt.fails msg)
                s.transactions).1
            pending := s.pending.erase (tid, t0) }
  | tick (s : AppState) (n : Nat) :
      Step s (Event.tick n) { s with clock := s.clock + n }

/-- States reachable from the empty system. -/
inductive Reachable : AppState → Prop
  | init : Reachable initialState
  | step {s : AppState} {e : Event} {s' : AppState}
      (h : Reachable s) (hs : Step s e s') : Reachable s'

/-- A concrete well-formed request used by the witnesses. -/
def w1 : WebhookRequest :=
  { transaction_id := "t1", source_account := "a", destination_account := "b",
    amount := 5, currency := "USD" }

/-- A duplicate of `w1`'s transaction whose other fields are invalid:
non-positive amount, two-character currency. -/
def w2 : WebhookRequest :=
  { transaction_id := "t1", source_account := "x", destination_account := "y",
    amount := -7, currency := "QQ" }

/-- A duplicate of `w1`'s transaction with different but schema-valid
other fields. -/
def w3 : WebhookRequest :=
  { transaction_id := "t1", source_account := "x", destination_account := "y",
    amount := 9, currency := "EUR" }

/-- State after the intake of `w1` from the empty system. -/
def exState1 : AppState := (receive_webhook w1 initialState).2

/-- State after the settlement sleep has elapsed. -/
def exState2 : AppState := { exState1 with clock := exState1.clock + 30 }

/-- State after the worker for `w1`'s transaction has run. -/
def exState3 : AppState := run_worker ("t1") 0 exState2

/-- The settled document held by `exState3`. -/
def exDocProcessed : TransactionDoc :=
  { transaction_id := "t1", source_account := "a", destination_account := "b",
    amount := 5, currency := "USD", status := "PROCESSED",
    created_at := 0, processed_at := some 30 }

/-- The exception text of the duplicate-key error contains the substring
the handler tests for. -/
lemma containsDuplicateKey_dupMsg : containsDuplicateKey duplicateKeyMessage = true := by
  decide

/-- The handler on a request whose `transaction_id` is already stored:
the insert raises the duplicate-key error, which is absorbed into the
accepted acknowledgment, with the state untouched. -/
lemma receive_webhook_dup (w : WebhookRequest) (s : AppState)
    (h : hasTransaction s.transactions w.transaction_id = true) :
    receive_webhook w s = (IntakeResponse.accepted, s) := by
  unfold receive_webhook insert_one
  have hb : (buildDoc w s.clock).transaction_id = w.transaction_id := rfl
  rw [hb, h]
  simp [handleInsertOutcome, containsDuplicateKey_dupMsg]

/-- The state after a successful insert: document appended, one worker
dispatched at the current clock. -/
def afterFirst (w : WebhookRequest) (s : AppState) : AppState :=
  { transactions := s.transactions ++ [buildDoc w s.clock]
    dispatched := s.dispatched ++ [(w.transaction_id, s.clock)]
    pending := s.pending ++ [(w.transaction_id, s.clock)]
    clock := s.clock }

/-- The handler on a request whose `transaction_id` is new: the document
is appended and one worker is dispatched. -/
lemma receive_webhook_new (w : WebhookRequest) (s : AppState)
    (h : hasTransaction s.transactions w.transaction_id = false) :
    receive_webhook w s = (IntakeResponse.accepted, afterFirst w s) := by
  unfold receive_webhook insert_one
  have hb : (buildDoc w s.clock).transaction_id = w.transaction_id := rfl
  rw [hb, h]
  rfl

/-- A run of requests all naming an already-stored `transaction_id`
leaves the state untouched and answers accepted to each. -/
lemma processAll_dup (tid : String) (ws : List WebhookRequest) (s : AppState)
    (hall : ∀ w ∈ ws, w.transaction_id = tid)
    (h : hasTransaction s.transactions tid = true) :
    processAll ws s = (ws.map (fun _ => IntakeResponse.accepted), s) := by
  induction ws with
  | nil => rfl
  | cons w ws ih =>
      have hw : w.transaction_id = tid := hall w (List.mem_cons_self w ws)
      have hdup : hasTransaction s.transactions w.transaction_id = true := by
        rw [hw]; exact h
      have hrec := ih (fun x hx => hall x (List.mem_cons_of_mem w hx))
      show ((receive_webhook w s).1 :: (processAll ws (receive_webhook w s).2).1,
        (processAll ws (receive_webhook w s).2).2) = _
      rw [receive_webhook_dup w s hdup]
      show (IntakeResponse.accepted :: (processAll ws s).1, (processAll ws s).2) = _
      rw [hrec]
      rfl

/-- A store in which a `transaction_id` is absent holds zero documents
counted for it. -/
lemma countP_eq_zero_of_hasTransaction_false {txs : List TransactionDoc} {tid : String}
    (h : hasTransaction txs tid = false) :
    txs.countP (fun d => d.transaction_id == tid) = 0 := by
  refine List.countP_eq_zero.mpr ?_
  intro d hd
  exact (List.any_eq_false.mp h) d hd

/-- Idempotency of the post-validation handler: a sequence of requests
that all carry the same `transaction_id`, run against a state in which
that id is not yet stored and no worker for it was ever dispatched,
stores exactly one record for that id, dispatches exactly one worker
for it, leaves the first request's record in the store unmutated, and
answers the accepted acknowledgment to every request. -/
lemma processAll_idempotency (tid : String) (w0 : WebhookRequest) (rest : List WebhookRequest)
    (s : AppState)
    (hall : ∀ w ∈ w0 :: rest, w.transaction_id = tid)
    (h0 : hasTransaction s.transactions tid = false)
    (hd : s.dispatched.countP (fun q => q.1 == tid) = 0) :
    (processAll (w0 :: rest) s).2.transactions.countP (fun d => d.transaction_id == tid) = 1
    ∧ (processAll (w0 :: rest) s).2.dispatched.countP (fun q => q.1 == tid) = 1
    ∧ buildDoc w0 s.clock ∈ (processAll (w0 :: rest) s).2.transactions
    ∧ ∀ r ∈ (processAll (w0 :: rest) s).1, r = IntakeResponse.accepted := by
  have hw0 : w0.transaction_id = tid := hall w0 (List.mem_cons_self w0 rest)
  have h0' : hasTransaction s.transactions w0.transaction_id = false := by
    rw [hw0]; exact h0
  have hs1t : hasTransaction (afterFirst w0 s).transactions tid = true := by
    simp [afterFirst, hasTransaction, List.any_append, buildDoc, hw0]
  have h2 := processAll_dup tid rest (afterFirst w0 s)
    (fun x hx => hall x (List.mem_cons_of_mem w0 hx)) hs1t
  have hPA : processAll (w0 :: rest) s
      = (IntakeResponse.accepted :: rest.map (fun _ => IntakeResponse.accepted),
          afterFirst w0 s) := by
    show ((receive_webhook w0 s).1 :: (processAll rest (receive_webhook w0 s).2).1,
      (processAll rest (receive_webhook w0 s).2).2) = _
    rw [receive_webhook_new w0 s h0']
    show (IntakeResponse.accepted :: (processAll rest (afterFirst w0 s)).1,
      (processAll rest (afterFirst w0 s)).2) = _
    rw [h2]
  rw [hPA]
  refine ⟨?_, ?_, ?_, ?_⟩
  · show ((afterFirst w0 s).transactions.countP fun d => d.transaction_id == tid) = 1
    simp [afterFirst, List.countP_append, List.countP_cons,
      countP_eq_zero_of_hasTransaction_false h0, buildDoc, hw0]
  · show ((afterFirst w0 s).dispatched.countP fun q => q.1 == tid) = 1
    simp [afterFirst, List.countP_append, List.countP_cons, hd, hw0]
  · show buildDoc w0 s.clock ∈ (afterFirst w0 s).transactions
    simp [afterFirst]
  · intro r hr
    rcases List.mem_cons.mp hr with h | h
    · exact h
    · rcases List.mem_map.mp h with ⟨x, _, hmap⟩
      exact hmap.symm

/-- A request passing validation goes through to the handler. -/
lemma webhook_endpoint_valid (w : WebhookRequest) (s : AppState)
    (h : validWebhook w = true) :
    webhook_endpoint w s = receive_webhook w s := by
  simp [webhook_endpoint, h]

/-- On all-valid request sequences the full endpoint coincides with the
post-validation handler. -/
lemma processAllEndpoint_eq_processAll (ws : List WebhookRequest) :
    ∀ s : AppState, (∀ w ∈ ws, validWebhook w = true) →
      processAllEndpoint ws s = processAll ws s := by
  induction ws with
  | nil =>
      intro s h
      rfl
  | cons w rest ih =>
      intro s h
      have hw := h w (List.mem_cons_self w rest)
      show ((webhook_endpoint w s).1 :: (processAllEndpoint rest (webhook_endpoint w s).2).1,
        (processAllEndpoint rest (webhook_endpoint w s).2).2) = _
      rw [webhook_endpoint_valid w s hw,
        ih (receive_webhook w s).2 (fun x hx => h x (List.mem_cons_of_mem w hx))]
      rfl

/-- Claim C1 counterexample: at the real intake endpoint — validation
included — two requests sharing `transaction_id` "t1" whose second has
invalid other fields (`w2`: amount -7, currency "QQ") do not both get
the accepted acknowledgment: the duplicate gets the 422 validation
response; and a sequence consisting only of the invalid request stores
no record at all rather than exactly one.  So the claim over duplicate
sequences with arbitrary other fields is false of the program. -/
theorem c1_counterexample :
    (processAllEndpoint [w1, w2] initialState).1
        = [IntakeResponse.accepted, IntakeResponse.validationError]
    ∧ IntakeResponse.validationError ≠ IntakeResponse.accepted
    ∧ (processAllEndpoint [w2] initialState).2.transactions = [] := by
  refine ⟨by decide, by decide, by decide⟩

/-- Claim C1 as amended: a sequence of intake requests at the full
endpoint that all carry the same `transaction_id` and whose payloads all
pass validation (amount positive, currency of length three — the other
fields otherwise arbitrary), run against a state in which that id is
not yet stored and no worker for it was ever dispatched, stores exactly
one record for that id, dispatches exactly one worker for it (hence at
most one), leaves the first request's record in the store unmutated by
the duplicates, and answers the accepted acknowledgment to every
request; a duplicate failing validation instead receives the 422
validation response, and a sequence of only invalid requests stores no
record. -/
theorem c1_idempotency_valid (tid : String) (w0 : WebhookRequest)
    (rest : List WebhookRequest) (s : AppState)
    (hall : ∀ w ∈ w0 :: rest, w.transaction_id = tid)
    (hvalid : ∀ w ∈ w0 :: rest, validWebhook w = true)
    (h0 : hasTransaction s.transactions tid = false)
    (hd : s.dispatched.countP (fun q => q.1 == tid) = 0) :
    (processAllEndpoint (w0 :: rest) s).2.transactions.countP
        (fun d => d.transaction_id == tid) = 1
    ∧ (processAllEndpoint (w0 :: rest) s).2.dispatched.countP
        (fun q => q.1 == tid) = 1
    ∧ buildDoc w0 s.clock ∈ (processAllEndpoint (w0 :: rest) s).2.transactions
    ∧ ∀ r ∈ (processAllEndpoint (w0 :: rest) s).1, r = IntakeResponse.accepted := by
  rw [processAllEndpoint_eq_processAll (w0 :: rest) s hvalid]
  exact processAll_idempotency tid w0 rest s hall h0 hd

/-- Claim C1 witness: two schema-valid requests for transaction "t1"
with differing other fields, run through the full endpoint from the
empty system. -/
theorem c1_idempotency_valid_witness :
    (processAllEndpoint [w1, w3] initialState).2.transactions.countP
        (fun d => d.transaction_id == "t1") = 1
    ∧ (processAllEndpoint [w1, w3] initialState).2.dispatched.countP
        (fun q => q.1 == "t1") = 1
    ∧ buildDoc w1 initialState.clock
        ∈ (processAllEndpoint [w1, w3] initialState).2.transactions := by
  have h := c1_idempotency_valid ("t1") w1 [w3] initialState
    (by decide) (by decide) (by decide) (by decide)
  exact ⟨h.1, h.2.1, h.2.2.1⟩

/-- Claim C2: a request with non-positive amount or a currency whose
length is not three is rejected by validation with the 422 response
before the handler body runs, and the state — in particular the store —
is untouched, so no record for its `transaction_id` is created. -/
theorem c2_validation (w : WebhookRequest) (s : AppState)
    (h : w.amount ≤ 0 ∨ w.currency.length ≠ 3) :
    webhook_endpoint w s = (IntakeResponse.validationError, s)
    ∧ (webhook_endpoint w s).2.transactions = s.transactions := by
  have hv : validWebhook w = false := by
    unfold validWebhook
    rcases h with h | h
    · have h1 : decide (0 < w.amount) = false := decide_eq_false (by omega)
      rw [h1, Bool.false_and]
    · have h2 : decide (w.currency.length = 3) = false := decide_eq_false h
      rw [h2, Bool.and_false]
  constructor
  · simp [webhook_endpoint, hv]
  · simp [webhook_endpoint, hv]

/-- Claim C2 witness: a zero-amount request is rejected with the store
untouched. -/
theorem c2_validation_witness :
    webhook_endpoint
        { transaction_id := "t0", source_account := "a", destination_account := "b",
          amount := 0, currency := "USD" } initialState
      = (IntakeResponse.validationError, initialState) :=
  (c2_validation
    { transaction_id := "t0", source_account := "a", destination_account := "b",
      amount := 0, currency := "USD" } initialState (Or.inl (by decide))).1

/-- Claim C3 counterexample: an insert failure that is not the store's
uniqueness violation (its text differs from `duplicateKeyMessage`, the
only exception `insert_one` raises for a duplicate) but whose text
happens to contain the substring "duplicate key" is absorbed by the
handler into the accepted acknowledgment instead of being surfaced as a
server error, because app.py line 168 distinguishes duplicates by a
substring test on the exception text. -/
theorem c3_counterexample :
    handleInsertOutcome w1 initialState
        (InsertOutcome.exc ("write retry aborted: previous duplicate key cleanup running"))
      = (IntakeResponse.accepted, initialState)
    ∧ ("write retry aborted: previous duplicate key cleanup running") ≠ duplicateKeyMessage := by
  constructor
  · decide
  · decide

/-- Claim C3 as amended: an insert failure whose exception text does not
contain the substring "duplicate key" (case-insensitive) is surfaced as
a 500 server error whose external detail is the fixed generic string
"Failed to process webhook" — independent of the exception text, so no
internal error text is exposed — and is never absorbed as accepted. -/
theorem c3_infrastructure_error (w : WebhookRequest) (s : AppState) (msg : String)
    (h : containsDuplicateKey msg = false) :
    handleInsertOutcome w s (InsertOutcome.exc msg)
        = (IntakeResponse.serverError 500 ("Failed to process webhook"), s)
    ∧ (handleInsertOutcome w s (InsertOutcome.exc msg)).1 ≠ IntakeResponse.accepted := by
  constructor
  · simp [handleInsertOutcome, h]
  · simp [handleInsertOutcome, h]

/-- Claim C3 witness: a connection failure is surfaced as the generic
500 error. -/
theorem c3_infrastructure_error_witness :
    handleInsertOutcome w1 initialState (InsertOutcome.exc ("connection timeout"))
      = (IntakeResponse.serverError 500 ("Failed to process webhook"), initialState) :=
  (c3_infrastructure_error w1 initialState ("connection timeout") (by decide)).1

/-- Claim C7 counterexample: when index creation fails, the startup hook
catches the exception, so nothing propagates (FastAPI startup completes
and the application serves traffic); the failure is not treated as
fatal. -/
theorem c7_counterexample :
    startup_event (IndexAttempt.fails ("connection refused"))
      = { indexError := some ("Failed to create indexes: connection refused"),
          propagated := false } := by
  decide

/-- Claim C7 as amended: a failure to establish the uniqueness constraint
at startup is detected and reported only as a logged error line
("Failed to create indexes: ..."); the exception never propagates out of
the startup hook, so startup is not fatal and the system begins serving
traffic regardless. -/
theorem c7_startup_not_fatal (msg : String) :
    startup_event (IndexAttempt.fails msg)
      = { indexError := some ("Failed to create indexes: " ++ msg),
          propagated := false } := rfl

/-- The relation between a document and its image under the settlement
update: every field except `status` and `processed_at` is preserved, and
a document whose `transaction_id` differs from the filter is wholly
unchanged. -/
def FrameRel (tid : String) (d d' : TransactionDoc) : Prop :=
  d'.transaction_id = d.transaction_id
  ∧ d'.source_account = d.source_account
  ∧ d'.destination_account = d.destination_account
  ∧ d'.amount = d.amount
  ∧ d'.currency = d.currency
  ∧ d'.created_at = d.created_at
  ∧ (d.transaction_id ≠ tid → d' = d)

lemma frameRel_self (tid : String) (d : TransactionDoc) : FrameRel tid d d :=
  ⟨rfl, rfl, rfl, rfl, rfl, rfl, fun _ => rfl⟩

lemma forall₂_frameRel_self (tid : String) (l : List TransactionDoc) :
    List.Forall₂ (FrameRel tid) l l := by
  induction l with
  | nil => exact List.Forall₂.nil
  | cons d rest ih => exact List.Forall₂.cons (frameRel_self tid d) ih

/-- If the update modified zero documents, the collection is unchanged:
either nothing matched, or the `$set` was a no-op on the first match. -/
lemma update_one_count_zero {txs : List TransactionDoc} {tid : String} {t : Nat}
    (h : (update_one txs tid t).2 = 0) :
    (update_one txs tid t).1 = txs := by
  induction txs with
  | nil => rfl
  | cons d rest ih =>
      by_cases hd : d.transaction_id = tid
      · have hdb : (d.transaction_id == tid) = true := beq_iff_eq.mpr hd
        by_cases he : ({ d with status := "PROCESSED", processed_at := some t }
            : TransactionDoc) = d
        · simp [update_one, hdb, he]
        · simp [update_one, hdb, he] at h
      · have hdb : (d.transaction_id == tid) = false := beq_eq_false_iff_ne.mpr hd
        simp [update_one, hdb] at h ⊢
        exact ih h

/-- Membership in the updated collection, backward direction: every
document of the result is either an untouched document of the input or
the settled image of one. -/
lemma update_one_mem {txs : List TransactionDoc} {tid : String} {t : Nat}
    {d' : TransactionDoc} (h : d' ∈ (update_one txs tid t).1) :
    d' ∈ txs
    ∨ ∃ d, d ∈ txs ∧ d' = { d with status := "PROCESSED", processed_at := some t } := by
  induction txs with
  | nil => simp [update_one] at h
  | cons x rest ih =>
      by_cases hx : x.transaction_id = tid
      · have hxb : (x.transaction_id == tid) = true := beq_iff_eq.mpr hx
        simp only [update_one, hxb, if_true, List.mem_cons] at h
        rcases h with rfl | hmem
        · exact Or.inr ⟨x, List.mem_cons_self x rest, rfl⟩
        · exact Or.inl (List.mem_cons_of_mem x hmem)
      · have hxb : (x.transaction_id == tid) = false := by
          exact beq_eq_false_iff_ne.mpr hx
        simp only [update_one, hxb, Bool.false_eq_true, if_false, List.mem_cons] at h
        rcases h with rfl | hmem
        · exact Or.inl (List.mem_cons_self d' rest)
        · rcases ih hmem with h1 | ⟨d, hdm, heq⟩
          · exact Or.inl (List.mem_cons_of_mem x h1)
          · exact Or.inr ⟨d, List.mem_cons_of_mem x hdm, heq⟩

/-- Membership in the updated collection, forward direction: every input
document survives with the same `transaction_id`, either untouched or
settled. -/
lemma update_one_forward {txs : List TransactionDoc} {tid : String} {t : Nat}
    {d : TransactionDoc} (hd : d ∈ txs) :
    ∃ d' ∈ (update_one txs tid t).1,
      d'.transaction_id = d.transaction_id ∧ (d' = d ∨ d'.status = "PROCESSED") := by
  induction txs with
  | nil => cases hd
  | cons x rest ih =>
      by_cases hx : x.transaction_id = tid
      · rcases List.mem_cons.mp hd with rfl | hmem
        · exact ⟨{ d with status := "PROCESSED", processed_at := some t },
            by simp [update_one, hx], rfl, Or.inr rfl⟩
        · exact ⟨d, by simp [update_one, hx, hmem], rfl, Or.inl rfl⟩
      · have hxb : (x.transaction_id == tid) = false := beq_eq_false_iff_ne.mpr hx
        rcases List.mem_cons.mp hd with rfl | hmem
        · exact ⟨d, by simp [update_one, hxb], rfl, Or.inl rfl⟩
        · rcases ih hmem with ⟨d', hd', hid, hc⟩
          refine ⟨d', ?_, hid, hc⟩
          simp only [update_one, hxb, Bool.false_eq_true, if_false, List.mem_cons]
          exact Or.inr hd'

/-- A document of the input collection whose `transaction_id` differs
from the filter is itself a member of the updated collection. -/
lemma update_one_mem_of_ne {txs : List TransactionDoc} {tid : String} {t : Nat}
    {d : TransactionDoc} (hd : d ∈ txs) (hne : d.transaction_id ≠ tid) :
    d ∈ (update_one txs tid t).1 := by
  induction txs with
  | nil => cases hd
  | cons x rest ih =>
      by_cases hx : x.transaction_id = tid
      · have hxb : (x.transaction_id == tid) = true := beq_iff_eq.mpr hx
        simp only [update_one, hxb, if_true, List.mem_cons]
        rcases List.mem_cons.mp hd with rfl | hmem
        · exact absurd hx hne
        · exact Or.inr hmem
      · have hxb : (x.transaction_id == tid) = false := beq_eq_false_iff_ne.mpr hx
        simp only [update_one, hxb, Bool.false_eq_true, if_false, List.mem_cons]
        rcases List.mem_cons.mp hd with rfl | hmem
        · exact Or.inl rfl
        · exact Or.inr (ih hmem)

/-- The update on a collection split around its first match: exactly that
document is rewritten, whatever its current `status`. -/
lemma update_one_split (pre : List TransactionDoc) (d : TransactionDoc)
    (post : List TransactionDoc) (tid : String) (t : Nat)
    (hpre : ∀ x ∈ pre, x.transaction_id ≠ tid) (hd : d.transaction_id = tid) :
    (update_one (pre ++ d :: post) tid t).1
      = pre ++ ({ d with status := "PROCESSED", processed_at := some t } :: post) := by
  induction pre with
  | nil => simp [update_one, hd]
  | cons x rest ih =>
      have hx : x.transaction_id ≠ tid := hpre x (List.mem_cons_self x rest)
      have hxb : (x.transaction_id == tid) = false := beq_eq_false_iff_ne.mpr hx
      simp only [List.cons_append, update_one, hxb, Bool.false_eq_true, if_false]
      exact congrArg (fun l => x :: l) (ih (fun y hy => hpre y (List.mem_cons_of_mem x hy)))

/-- Claim C4: a dispatched settlement worker can perform its update only
after its fixed 30-unit sleep has elapsed since dispatch, and the update
it then issues is `update_one` at the current clock: matched only
against its `transaction_id`, it rewrites exactly the matched document
to `status = PROCESSED` with `processed_at = now`, with no precondition
on — and regardless of — the document's current status. -/
theorem c4_settlement_update (s s' : AppState) (tid : String) (t0 : Nat)
    (hstep : Step s (Event.workerRun tid t0) s') :
    t0 + 30 ≤ s.clock
    ∧ s'.transactions = (update_one s.transactions tid s.clock).1
    ∧ ∀ pre d post, s.transactions = pre ++ d :: post →
        (∀ x ∈ pre, x.transaction_id ≠ tid) → d.transaction_id = tid →
        s'.transactions
          = pre ++ ({ d with status := "PROCESSED", processed_at := some s.clock } :: post) := by
  cases hstep with
  | workerRun a b hmem ht =>
      refine ⟨ht, rfl, ?_⟩
      intro pre d post hsplit hpre hdid
      show (update_one s.transactions tid s.clock).1 = _
      rw [hsplit]
      exact update_one_split pre d post tid s.clock hpre hdid

/-- Claim C4 witness: the worker dispatched at time 0 runs at clock 30
and settles the stored document. -/
theorem c4_settlement_update_witness :
    0 + 30 ≤ exState2.clock
    ∧ (run_worker ("t1") 0 exState2).transactions
        = (update_one exState2.transactions ("t1") exState2.clock).1 := by
  have h := c4_settlement_update exState2 (run_worker ("t1") 0 exState2) ("t1") 0
    (Step.workerRun exState2 ("t1") 0 (by decide) (by decide))
  exact ⟨h.1, h.2.1⟩

/-- Claim C5: a worker whose update modified zero documents returns
normally with only the warning log line — no retry, no failure, and (the
modified count being zero) the collection unchanged; a worker whose
try-block raises is caught, returns normally with only the error log
line and the collection unchanged, so nothing propagates out of it; and
under every outcome any document of another `transaction_id` is left
untouched in the collection, so no other transaction is affected. -/
theorem c5_worker_fault_isolation :
    (∀ tid uT txs, (update_one txs tid uT).2 = 0 →
        process_transaction_background tid uT UpdateAttempt.succeeds txs
          = (txs, WorkerLog.warning tid))
    ∧ (∀ tid uT msg txs,
        process_transaction_background tid uT (UpdateAttempt.fails msg) txs
          = (txs, WorkerLog.errorLog tid msg))
    ∧ (∀ tid uT a txs d, d ∈ txs → d.transaction_id ≠ tid →
        d ∈ (process_transaction_background tid uT a txs).1) := by
  refine ⟨?_, ?_, ?_⟩
  · intro tid uT txs h
    have h1 := update_one_count_zero h
    simp [process_transaction_background, worker_try, h, h1]
  · intro tid uT msg txs
    rfl
  · intro tid uT a txs d hd hne
    cases a with
    | succeeds =>
        show d ∈ (update_one txs tid uT).1
        exact update_one_mem_of_ne hd hne
    | fails msg => exact hd

/-- Claim C5 witness: a worker for an absent transaction returns with the
warning log and an unchanged (empty) store. -/
theorem c5_worker_fault_isolation_witness :
    process_transaction_background ("t9") 7 UpdateAttempt.succeeds []
      = ([], WorkerLog.warning ("t9")) :=
  c5_worker_fault_isolation.1 ("t9") 7 [] (by decide)

/-- Claim C10: the settlement update writes only `status` and
`processed_at`: position by position, every other field of every
document — `transaction_id`, `source_account`, `destination_account`,
`amount`, `currency`, `created_at` — is preserved, whatever values they
hold, and a document not matching the filter is wholly unchanged. -/
theorem c10_worker_frame (txs : List TransactionDoc) (tid : String) (t : Nat) :
    List.Forall₂ (FrameRel tid) txs (update_one txs tid t).1 := by
  induction txs with
  | nil => exact List.Forall₂.nil
  | cons d rest ih =>
      by_cases hd : d.transaction_id = tid
      · have hdb : (d.transaction_id == tid) = true := beq_iff_eq.mpr hd
        simp only [update_one, hdb, if_true]
        refine List.Forall₂.cons ?_ (forall₂_frameRel_self tid rest)
        exact ⟨rfl, rfl, rfl, rfl, rfl, rfl, fun hne => absurd hd hne⟩
      · have hdb : (d.transaction_id == tid) = false := beq_eq_false_iff_ne.mpr hd
        simp only [update_one, hdb, Bool.false_eq_true, if_false]
        exact List.Forall₂.cons (frameRel_self tid d) ih

/-- Claim C6: querying a `transaction_id` for which no record exists
yields the 404 not-found response whose detail names the queried id, and
never the generic 500 server error; querying an id whose record is
stored yields that record whole, with every field of the data model. -/
theorem c6_status_query (tid : String) (txs : List TransactionDoc) :
    ((∀ d ∈ txs, d.transaction_id ≠ tid) →
      get_transaction_status tid (find_one txs tid)
          = StatusResponse.notFound ("Transaction not found: " ++ tid)
      ∧ ∀ c detail, get_transaction_status tid (find_one txs tid)
          ≠ StatusResponse.serverError c detail)
    ∧ ∀ d, txs.find? (fun x => x.transaction_id == tid) = some d →
        get_transaction_status tid (find_one txs tid) = StatusResponse.ok d := by
  constructor
  · intro h
    have hnone : txs.find? (fun x => x.transaction_id == tid) = none := by
      refine List.find?_eq_none.mpr ?_
      intro d hd
      simpa using h d hd
    constructor
    · simp [get_transaction_status, find_one, hnone]
    · intro c detail
      simp [get_transaction_status, find_one, hnone]
  · intro d hd
    simp [get_transaction_status, find_one, hd]

/-- Claim C6 witness: the unknown id "missing" yields the descriptive
not-found response, and the stored record of `exState1` is returned
whole. -/
theorem c6_status_query_witness :
    get_transaction_status ("missing") (find_one [] ("missing"))
      = StatusResponse.notFound ("Transaction not found: " ++ "missing")
    ∧ get_transaction_status ("t1") (find_one exState1.transactions ("t1"))
      = StatusResponse.ok (buildDoc w1 0) := by
  constructor
  · exact ((c6_status_query ("missing") []).1 (by decide)).1
  · exact (c6_status_query ("t1") exState1.transactions).2 (buildDoc w1 0) (by decide)

/-- The per-document invariant at a given clock: the document was created
no later than now, and it is either an unsettled record (PROCESSING with
`processed_at` absent) or a settled one (PROCESSED with `processed_at`
set between its creation time and now). -/
def DocInv (clock : Nat) (d : TransactionDoc) : Prop :=
  d.created_at ≤ clock
  ∧ ((d.status = "PROCESSING" ∧ d.processed_at = none)
     ∨ (d.status = "PROCESSED"
        ∧ ∃ p, d.processed_at = some p ∧ d.created_at ≤ p ∧ p ≤ clock))

/-- The system invariant: every stored document satisfies `DocInv` at the
current clock. -/
def SysInv (s : AppState) : Prop := ∀ d ∈ s.transactions, DocInv s.clock d

lemma docInv_mono {c c' : Nat} {d : TransactionDoc} (h : c ≤ c') (hd : DocInv c d) :
    DocInv c' d := by
  refine ⟨hd.1.trans h, ?_⟩
  rcases hd.2 with h1 | ⟨h1, p, hp, hcp, hpc⟩
  · exact Or.inl h1
  · exact Or.inr ⟨h1, p, hp, hcp, hpc.trans h⟩

/-- Every step of the system preserves the invariant. -/
lemma inv_step {s : AppState} {e : Event} {s' : AppState}
    (hs : SysInv s) (hstep : Step s e s') : SysInv s' := by
  cases hstep with
  | intake w =>
      cases h : hasTransaction s.transactions w.transaction_id with
      | true =>
          rw [receive_webhook_dup w s h]
          exact hs
      | false =>
          rw [receive_webhook_new w s h]
          intro d hd
          rcases List.mem_append.mp hd with hmem | hmem
          · exact hs d hmem
          · have hdq : d = buildDoc w s.clock := by simpa using hmem
            subst hdq
            exact ⟨Nat.le_refl _, Or.inl ⟨rfl, rfl⟩⟩
  | workerRun tid t0 hmem ht =>
      intro d' hd'
      have hd'' : d' ∈ (update_one s.transactions tid s.clock).1 := hd'
      rcases update_one_mem hd'' with hold | ⟨d, hdm, hdq⟩
      · exact hs d' hold
      · subst hdq
        have hinv := hs d hdm
        exact ⟨hinv.1, Or.inr ⟨rfl, s.clock, rfl, hinv.1, Nat.le_refl _⟩⟩
  | workerFail tid t0 msg hmem =>
      intro d hd
      exact hs d hd
  | tick n =>
      intro d hd
      exact docInv_mono (Nat.le_add_right s.clock n) (hs d hd)

/-- Every reachable state satisfies the invariant. -/
lemma inv_reachable {s : AppState} (h : Reachable s) : SysInv s := by
  induction h with
  | init =>
      intro d hd
      simp [initialState] at hd
  | step hr hstep ih => exact inv_step ih hstep

/-- Through any single step, a settled document keeps a settled document
with its `transaction_id` in the store: status never moves back to
PROCESSING. -/
lemma processed_persists {s : AppState} {e : Event} {s' : AppState}
    (hstep : Step s e s') {d : TransactionDoc}
    (hd : d ∈ s.transactions) (hp : d.status = "PROCESSED") :
    ∃ d' ∈ s'.transactions, d'.transaction_id = d.transaction_id
      ∧ d'.status = "PROCESSED" := by
  cases hstep with
  | intake w =>
      cases h : hasTransaction s.transactions w.transaction_id with
      | true =>
          rw [receive_webhook_dup w s h]
          exact ⟨d, hd, rfl, hp⟩
      | false =>
          rw [receive_webhook_new w s h]
          exact ⟨d, List.mem_append_left _ hd, rfl, hp⟩
  | workerRun tid t0 hmem ht =>
      rcases update_one_forward hd with ⟨d', hd', hid, hcase⟩
      refine ⟨d', hd', hid, ?_⟩
      rcases hcase with hq | hps
      · rw [hq]; exact hp
      · exact hps
  | workerFail tid t0 msg hmem => exact ⟨d, hd, rfl, hp⟩
  | tick n => exact ⟨d, hd, rfl, hp⟩

/-- The concrete run used by the C8 and C9 witnesses: intake of `w1`,
then the 30-unit sleep, then the worker. -/
lemma reachable_exState3 : Reachable exState3 :=
  Reachable.step
    (Reachable.step
      (Reachable.step Reachable.init (Step.intake initialState w1))
      (Step.tick exState1 30))
    (Step.workerRun exState2 ("t1") 0 (by decide) (by decide))

/-- Claim C8: in every reachable state each stored record is either
PROCESSING with `processed_at` absent or PROCESSED with `processed_at`
present (so `processed_at` is set exactly when the record is PROCESSED),
and through every step of the system a PROCESSED record keeps a
PROCESSED record with its `transaction_id` in the store — status never
moves from PROCESSED back to PROCESSING. -/
theorem c8_state_monotonicity :
    (∀ s, Reachable s → ∀ d ∈ s.transactions,
      (d.status = "PROCESSING" ∧ d.processed_at = none)
      ∨ (d.status = "PROCESSED" ∧ d.processed_at ≠ none))
    ∧ (∀ s e s', Reachable s → Step s e s' → ∀ d ∈ s.transactions,
        d.status = "PROCESSED" →
        ∃ d' ∈ s'.transactions, d'.transaction_id = d.transaction_id
          ∧ d'.status = "PROCESSED") := by
  constructor
  · intro s hs d hd
    rcases (inv_reachable hs d hd).2 with ⟨h1, h2⟩ | ⟨h1, p, hp, _, _⟩
    · exact Or.inl ⟨h1, h2⟩
    · refine Or.inr ⟨h1, ?_⟩
      rw [hp]
      exact Option.some_ne_none p
  · intro s e s' _ hstep d hd hp
    exact processed_persists hstep hd hp

/-- Claim C8 witness: the settled document of the concrete run is
PROCESSED with `processed_at` present. -/
theorem c8_state_monotonicity_witness :
    (exDocProcessed.status = "PROCESSING" ∧ exDocProcessed.processed_at = none)
    ∨ (exDocProcessed.status = "PROCESSED" ∧ exDocProcessed.processed_at ≠ none) :=
  c8_state_monotonicity.1 exState3 reachable_exState3 exDocProcessed (by decide)

/-- Claim C9: in every reachable state, whenever a record carries both
timestamps, its creation time is no later than its settlement time:
`created_at ≤ processed_at`. -/
theorem c9_created_le_processed (s : AppState) (h : Reachable s) :
    ∀ d ∈ s.transactions, ∀ p, d.processed_at = some p → d.created_at ≤ p := by
  intro d hd p hp
  rcases (inv_reachable h d hd).2 with ⟨_, hnone⟩ | ⟨_, q, hq, hcq, _⟩
  · rw [hp] at hnone
    cases hnone
  · rw [hp] at hq
    injection hq with hqp
    subst hqp
    exact hcq

/-- Claim C9 witness: the settled document of the concrete run was
created at time 0 and settled at time 30. -/
theorem c9_created_le_processed_witness : exDocProcessed.created_at ≤ 30 :=
  c9_created_le_processed exState3 reachable_exState3 exDocProcessed (by decide) 30 (by decide)
